import Mathlib

/-!
Verification of the MorseFlasher torch-state reconciler (src/app/_layout.tsx).

The component keeps five pieces of React state (permission, cameraReady,
flashlightOn, message, cameraAvailable) plus two refs (appStateRef,
torchStateRef).  Event handlers mutate the state; after every batch of
state updates React re-renders and runs the effects whose dependencies
changed.  Two effects matter for the state itself: the one that mirrors
flashlightOn into torchStateRef, and the reconciler that forces
flashlightOn to false whenever permission is not granted.  `flushEffects`
models one quiescent effect pass (two rounds reach the fixed point).

Asynchronous permission operations are modelled by their resolutions:
each resolution function takes the oracle outcome of the OS call and the
state at resumption time.  The boolean `m` passed to the resolution
functions models the mounted flag of the issuing scope at resumption
time; the initial ensurePermission effect consults such a flag in the
source, the other two resolutions do not, and the definitions mirror
that exactly.
-/

namespace MorseFlasher

/-- Permission state, source line 57: "unknown" | "granted" | "denied". -/
inductive PermissionState where
  | unknown
  | granted
  | denied
deriving DecidableEq, BEq, Repr

/-- React Native AppStateStatus values. -/
inductive AppStateStatus where
  | active
  | background
  | inactive
  | unknown
  | extension
deriving DecidableEq, BEq, Repr

/-- The component state: the five useState fields plus the two refs. -/
structure AppModel where
  permission : PermissionState
  cameraReady : Bool
  flashlightOn : Bool
  message : Option String
  cameraAvailable : Bool
  appStateRef : AppStateStatus
  torchStateRef : Bool
deriving DecidableEq, Repr

/-- Outcome of the Camera.requestCameraPermissionsAsync call made by
requestPermission (granted / denied status, or the call throwing). -/
inductive ReqOutcome where
  | granted
  | denied
  | failure
deriving DecidableEq, Repr

/-- Outcome of the ensurePermission effect body: the initial query found
the permission granted; the query was not granted, a re-ask was allowed
and the request resolved granted; same but the request did not resolve
granted; the query was not granted and canAskAgain was false; or one of
the awaited calls threw (the single catch block). -/
inductive EnsureOutcome where
  | alreadyGranted
  | askAgainGranted
  | askAgainDenied
  | cannotAsk
  | queryFailed
deriving DecidableEq, Repr

/-- The Alert.alert popups toggleFlashlight can raise (source lines
182, 192, 205); they are outputs, not state. -/
inductive ToggleAlert where
  | notSupported
  | permissionNeeded
  | cameraUnavailable
deriving DecidableEq, Repr

/-- Derived camera readiness in the vocabulary of the spec: the camera
gate of the code checks cameraAvailable before cameraReady, so a state
with cameraAvailable = false counts as Errored whatever cameraReady is. -/
inductive CameraReadiness where
  | notReady
  | ready
  | errored
deriving DecidableEq, Repr

def readiness (s : AppModel) : CameraReadiness :=
  if s.cameraAvailable = false then CameraReadiness.errored
  else if s.cameraReady = true then CameraReadiness.ready
  else CameraReadiness.notReady

def permRequiredMsg : String :=
  "Camera permission is required to control the flashlight."

def couldNotReadMsg : String :=
  "Could not read camera permission state."

def accessRequiredMsg : String :=
  "Camera access is required to control the flashlight."

def unableToRequestMsg : String :=
  "Unable to request camera permission."

def stillStartingMsg : String :=
  "Camera is still starting. Try again in a moment."

def unknownCameraErrorMsg : String :=
  "Unknown camera error."

/-- One pass of the state-relevant effects, source lines 73-75 (mirror
flashlightOn into torchStateRef) and 146-150 (force flashlightOn to
false when permission is not granted), in declaration order. -/
def flushOnce (s : AppModel) : AppModel :=
  if s.permission ≠ PermissionState.granted ∧ s.flashlightOn = true then
    { s with torchStateRef := s.flashlightOn, flashlightOn := false }
  else
    { s with torchStateRef := s.flashlightOn }

/-- The effect pass run to quiescence: when the reconciler effect fires
it changes flashlightOn, which re-triggers both effects once more; two
rounds reach the fixed point. -/
def flushEffects (s : AppModel) : AppModel :=
  flushOnce (flushOnce s)

/-- Initial state on mount, source lines 62-71: permission starts
unknown on mobile and denied elsewhere; cameraReady and flashlightOn
false; no message; cameraAvailable optimistically true; appStateRef
seeded from AppState.currentState (parameter a0); torchStateRef false. -/
def initState (isMobile : Bool) (a0 : AppStateStatus) : AppModel :=
  { permission := if isMobile = true then PermissionState.unknown else PermissionState.denied
    cameraReady := false
    flashlightOn := false
    message := none
    cameraAvailable := true
    appStateRef := a0
    torchStateRef := false }

/-- Resolution of the ensurePermission effect body (source lines
82-109).  `m` is the mounted flag read at resumption: every branch,
including the catch block, returns before any state update when the
flag is false. -/
def ensurePermissionRun (m : Bool) (o : EnsureOutcome) (s : AppModel) : AppModel :=
  if m = false then s
  else
    match o with
    | EnsureOutcome.alreadyGranted =>
        flushEffects { s with permission := PermissionState.granted }
    | EnsureOutcome.askAgainGranted =>
        flushEffects { s with permission := PermissionState.granted }
    | EnsureOutcome.askAgainDenied =>
        flushEffects { s with permission := PermissionState.denied,
                              message := some permRequiredMsg }
    | EnsureOutcome.cannotAsk =>
        flushEffects { s with permission := PermissionState.denied,
                              message := some permRequiredMsg }
    | EnsureOutcome.queryFailed =>
        flushEffects { s with permission := PermissionState.denied,
                              message := some couldNotReadMsg }

/-- Resolution of requestPermission (source lines 152-166); the second
component is its returned boolean.  The source consults no mounted
flag, so the result ignores `m`. -/
def requestPermissionRun (m : Bool) (o : ReqOutcome) (s : AppModel) : AppModel × Bool :=
  match o with
  | ReqOutcome.granted =>
      (flushEffects { s with permission := PermissionState.granted }, true)
  | ReqOutcome.denied =>
      (flushEffects { s with permission := PermissionState.denied,
                             message := some accessRequiredMsg }, false)
  | ReqOutcome.failure =>
      (flushEffects { s with permission := PermissionState.denied,
                             message := some unableToRequestMsg }, false)

/-- Resolution of the foreground permission re-query issued by the
AppState listener when the next state is active (source lines 132-138).
`res` is none when the query fails (the catch swallows it, no state
update), otherwise some of whether the status was granted.  The source
consults no mounted flag, so the result ignores `m`. -/
def foregroundQueryRun (m : Bool) (res : Option Bool) (s : AppModel) : AppModel :=
  match res with
  | none => s
  | some g =>
      flushEffects { s with permission :=
        if g = true then PermissionState.granted else PermissionState.denied }

/-- handleCameraReady, source lines 168-171. -/
def handleCameraReady (s : AppModel) : AppModel :=
  flushEffects { s with cameraReady := true, message := none }

/-- handleCameraError, source lines 173-178; msg none models a missing
error message, replaced by the fallback text. -/
def handleCameraError (msg : Option String) (s : AppModel) : AppModel :=
  flushEffects { s with cameraReady := false
                        cameraAvailable := false
                        flashlightOn := false
                        message := some (msg.getD unknownCameraErrorMsg) }

def isInactiveOrBackground : AppStateStatus → Bool
  | AppStateStatus.inactive => true
  | AppStateStatus.background => true
  | _ => false

/-- The synchronous body of the AppState change listener (source lines
121-130): record the new app state in the ref, and on the
active-to-inactive/background edge with the torch ref set, clear the
torch ref and flashlightOn inside the handler itself. -/
def appStateChangeCore (next : AppStateStatus) (s : AppModel) : AppModel :=
  if s.appStateRef = AppStateStatus.active ∧ isInactiveOrBackground next = true
     ∧ s.torchStateRef = true then
    { s with appStateRef := next, torchStateRef := false, flashlightOn := false }
  else
    { s with appStateRef := next }

/-- The AppState change listener including the effect pass that follows
its setFlashlightOn call; when the listener performs no state update no
effects run.  The foreground re-query it may issue resolves later as a
separate foregroundQueryRun event. -/
def appStateChangeListener (next : AppStateStatus) (s : AppModel) : AppModel :=
  if s.appStateRef = AppStateStatus.active ∧ isInactiveOrBackground next = true
     ∧ s.torchStateRef = true then
    flushEffects (appStateChangeCore next s)
  else
    appStateChangeCore next s

/-- toggleFlashlight, source lines 180-216, processed to completion with
the outcome of the one-shot permission request supplied by `req`.  The
camera gates read the values captured by the useCallback closure, which
equal the fields of `s`.  The second component is the alert raised, if
any. -/
def toggleFlashlight (isMobile : Bool) (req : ReqOutcome) (s : AppModel) :
    AppModel × Option ToggleAlert :=
  if isMobile = false then (s, some ToggleAlert.notSupported)
  else
    let gate : AppModel × Bool :=
      if s.permission = PermissionState.granted then (s, true)
      else requestPermissionRun true req s
    if gate.2 = false then (gate.1, some ToggleAlert.permissionNeeded)
    else if s.cameraAvailable = false then (gate.1, some ToggleAlert.cameraUnavailable)
    else if s.cameraReady = false then
      (flushEffects { gate.1 with message := some stillStartingMsg }, none)
    else
      (flushEffects { gate.1 with message := none,
                                  flashlightOn := !gate.1.flashlightOn }, none)

/-- The state component of a toggle on a supported platform. -/
def toggleStep (req : ReqOutcome) (s : AppModel) : AppModel :=
  (toggleFlashlight true req s).1

/-- statusText, source lines 218-225: the derived status string. -/
def statusText (isMobile : Bool) (s : AppModel) : String :=
  if isMobile = false then "Flashlight works only on Android/iOS devices."
  else if s.permission = PermissionState.unknown then "Checking camera permission..."
  else if s.permission = PermissionState.denied then "Grant camera permission."
  else if s.cameraAvailable = false then "Camera unavailable."
  else if s.cameraReady = false then "Starting camera session..."
  else if s.flashlightOn = true then "Flashlight is ON." else "Flashlight is OFF."

/-- The status text as the spec words it: an explicit ordered list of
(predicate, text) pairs evaluated top-down, first match wins, with the
ON/OFF text as the default when no rule matches. -/
def statusRules (isMobile : Bool) : List ((AppModel → Bool) × String) :=
  [ (fun _ => !isMobile, "Flashlight works only on Android/iOS devices."),
    (fun s => s.permission == PermissionState.unknown, "Checking camera permission..."),
    (fun s => s.permission == PermissionState.denied, "Grant camera permission."),
    (fun s => !s.cameraAvailable, "Camera unavailable."),
    (fun s => !s.cameraReady, "Starting camera session...") ]

def statusTextSpec (isMobile : Bool) (s : AppModel) : String :=
  match (statusRules isMobile).find? (fun r => r.1 s) with
  | some r => r.2
  | none => if s.flashlightOn = true then "Flashlight is ON." else "Flashlight is OFF."

/-- The events of one app session: resolution of the mount-time
permission effect, the camera callbacks, an AppState transition, the
resolution of a foreground re-query, and a user toggle carrying the
oracle outcome of the permission request it may issue.  Resolutions run
with the session still mounted. -/
inductive Ev where
  | ensureResolve (o : EnsureOutcome)
  | cameraReady
  | cameraError (msg : Option String)
  | appStateChange (next : AppStateStatus)
  | foregroundResolve (res : Option Bool)
  | toggle (req : ReqOutcome)
deriving DecidableEq, Repr

/-- Processing of one event.  The permission effect and the AppState
listener are only installed on mobile (source lines 79 and 119), and
toggleFlashlight itself refuses off mobile. -/
def step (isMobile : Bool) (e : Ev) (s : AppModel) : AppModel :=
  match e with
  | Ev.ensureResolve o =>
      if isMobile = true then ensurePermissionRun true o s else s
  | Ev.cameraReady => handleCameraReady s
  | Ev.cameraError msg => handleCameraError msg s
  | Ev.appStateChange next =>
      if isMobile = true then appStateChangeListener next s else s
  | Ev.foregroundResolve res =>
      if isMobile = true then foregroundQueryRun true res s else s
  | Ev.toggle req => (toggleFlashlight isMobile req s).1

/-- A whole event sequence. -/
def run (isMobile : Bool) (evs : List Ev) (s : AppModel) : AppModel :=
  evs.foldl (fun t e => step isMobile e t) s

/-- The torch can only be on with permission granted and the camera
both available and ready. -/
def Good (s : AppModel) : Prop :=
  s.flashlightOn = true →
    s.permission = PermissionState.granted ∧ s.cameraAvailable = true ∧ s.cameraReady = true

theorem flushOnce_permission (s : AppModel) : (flushOnce s).permission = s.permission := by
  unfold flushOnce; split <;> rfl

theorem flushOnce_cameraReady (s : AppModel) : (flushOnce s).cameraReady = s.cameraReady := by
  unfold flushOnce; split <;> rfl

theorem flushOnce_cameraAvailable (s : AppModel) :
    (flushOnce s).cameraAvailable = s.cameraAvailable := by
  unfold flushOnce; split <;> rfl

theorem flushOnce_message (s : AppModel) : (flushOnce s).message = s.message := by
  unfold flushOnce; split <;> rfl

theorem flushOnce_appStateRef (s : AppModel) : (flushOnce s).appStateRef = s.appStateRef := by
  unfold flushOnce; split <;> rfl

theorem flushOnce_flashlightOn (s : AppModel) :
    (flushOnce s).flashlightOn =
      if s.permission = PermissionState.granted then s.flashlightOn else false := by
  unfold flushOnce
  by_cases hp : s.permission = PermissionState.granted <;>
    by_cases hf : s.flashlightOn = true <;>
    simp_all

theorem flushEffects_permission (s : AppModel) : (flushEffects s).permission = s.permission := by
  unfold flushEffects; rw [flushOnce_permission, flushOnce_permission]

theorem flushEffects_cameraReady (s : AppModel) :
    (flushEffects s).cameraReady = s.cameraReady := by
  unfold flushEffects; rw [flushOnce_cameraReady, flushOnce_cameraReady]

theorem flushEffects_cameraAvailable (s : AppModel) :
    (flushEffects s).cameraAvailable = s.cameraAvailable := by
  unfold flushEffects; rw [flushOnce_cameraAvailable, flushOnce_cameraAvailable]

theorem flushEffects_message (s : AppModel) : (flushEffects s).message = s.message := by
  unfold flushEffects; rw [flushOnce_message, flushOnce_message]

theorem flushEffects_appStateRef (s : AppModel) :
    (flushEffects s).appStateRef = s.appStateRef := by
  unfold flushEffects; rw [flushOnce_appStateRef, flushOnce_appStateRef]

theorem flushEffects_flashlightOn (s : AppModel) :
    (flushEffects s).flashlightOn =
      if s.permission = PermissionState.granted then s.flashlightOn else false := by
  unfold flushEffects
  rw [flushOnce_flashlightOn, flushOnce_flashlightOn, flushOnce_permission]
  by_cases hp : s.permission = PermissionState.granted <;> simp [hp]

theorem readiness_flushEffects (s : AppModel) : readiness (flushEffects s) = readiness s := by
  unfold readiness
  rw [flushEffects_cameraAvailable, flushEffects_cameraReady]

/-- If the torch can be on in `u` only when permission, availability and
readiness line up, the same holds after the effect pass. -/
theorem good_flushEffects (u : AppModel)
    (h : u.flashlightOn = true → u.permission = PermissionState.granted →
      u.cameraAvailable = true ∧ u.cameraReady = true) :
    Good (flushEffects u) := by
  intro hf
  rw [flushEffects_flashlightOn] at hf
  by_cases hp : u.permission = PermissionState.granted
  · rw [if_pos hp] at hf
    refine ⟨?_, ?_, ?_⟩
    · rw [flushEffects_permission]; exact hp
    · rw [flushEffects_cameraAvailable]; exact (h hf hp).1
    · rw [flushEffects_cameraReady]; exact (h hf hp).2
  · rw [if_neg hp] at hf
    exact absurd hf (by simp)

theorem good_requestPermissionRun (m : Bool) (o : ReqOutcome) (s : AppModel)
    (hs : Good s) : Good (requestPermissionRun m o s).1 := by
  cases o <;>
    · apply good_flushEffects
      intro hf hp
      first
        | exact ⟨(hs hf).2.1, (hs hf).2.2⟩
        | exact absurd hp (by simp)

theorem requestPermissionRun_false_flash (m : Bool) (o : ReqOutcome) (s : AppModel)
    (h : (requestPermissionRun m o s).2 = false) :
    (requestPermissionRun m o s).1.flashlightOn = false := by
  cases o
  · exact absurd h (by simp [requestPermissionRun])
  · show (flushEffects _).flashlightOn = false
    rw [flushEffects_flashlightOn]; simp
  · show (flushEffects _).flashlightOn = false
    rw [flushEffects_flashlightOn]; simp

theorem requestPermissionRun_granted (m : Bool) (s : AppModel) :
    requestPermissionRun m ReqOutcome.granted s =
      (flushEffects { s with permission := PermissionState.granted }, true) := rfl

theorem good_step (isMobile : Bool) (e : Ev) (s : AppModel) (hs : Good s) :
    Good (step isMobile e s) := by
  cases e with
  | ensureResolve o =>
      show Good (if isMobile = true then ensurePermissionRun true o s else s)
      split
      · show Good (ensurePermissionRun true o s)
        unfold ensurePermissionRun
        rw [if_neg (by simp)]
        cases o <;>
          · apply good_flushEffects
            intro hf hp
            first
              | exact ⟨(hs hf).2.1, (hs hf).2.2⟩
              | exact absurd hp (by simp)
      · exact hs
  | cameraReady =>
      show Good (handleCameraReady s)
      apply good_flushEffects
      intro hf _
      exact ⟨(hs hf).2.1, rfl⟩
  | cameraError msg =>
      show Good (handleCameraError msg s)
      apply good_flushEffects
      intro hf _
      exact absurd hf (by simp)
  | appStateChange next =>
      show Good (if isMobile = true then appStateChangeListener next s else s)
      split
      · show Good (appStateChangeListener next s)
        unfold appStateChangeListener appStateChangeCore
        split
        · apply good_flushEffects
          intro hf _
          exact absurd hf (by simp)
        · exact fun hf => hs hf
      · exact hs
  | foregroundResolve res =>
      show Good (if isMobile = true then foregroundQueryRun true res s else s)
      split
      · show Good (foregroundQueryRun true res s)
        cases res with
        | none => exact hs
        | some g =>
            apply good_flushEffects
            intro hf _
            exact ⟨(hs hf).2.1, (hs hf).2.2⟩
      · exact hs
  | toggle req =>
      show Good (toggleFlashlight isMobile req s).1
      unfold toggleFlashlight
      by_cases hm : isMobile = false
      · rw [if_pos hm]; exact hs
      · rw [if_neg hm]
        simp only
        set gate : AppModel × Bool :=
          if s.permission = PermissionState.granted then (s, true)
          else requestPermissionRun true req s with hgate
        have hgate1 : Good gate.1 := by
          rw [hgate]; split
          · exact hs
          · exact good_requestPermissionRun true req s hs
        have hgateflash : gate.1.flashlightOn = true → s.flashlightOn = true := by
          rw [hgate]; split
          · exact fun h => h
          · intro h
            cases req with
            | granted =>
                rw [requestPermissionRun_granted] at h
                simp only at h
                rw [flushEffects_flashlightOn] at h
                simpa using h
            | denied => simp [requestPermissionRun, flushEffects_flashlightOn] at h
            | failure => simp [requestPermissionRun, flushEffects_flashlightOn] at h
        have hga : gate.1.cameraAvailable = s.cameraAvailable := by
          rw [hgate]; split
          · rfl
          · cases req <;> simp [requestPermissionRun, flushEffects_cameraAvailable]
        have hgr : gate.1.cameraReady = s.cameraReady := by
          rw [hgate]; split
          · rfl
          · cases req <;> simp [requestPermissionRun, flushEffects_cameraReady]
        split
        · exact hgate1
        · split
          · exact hgate1
          · split
            · apply good_flushEffects
              intro hf _
              have := hs (hgateflash hf)
              refine absurd this.2.2 ?_
              simp_all
            · rename_i hav hrd
              have hav2 : s.cameraAvailable = true := by simpa using hav
              have hrd2 : s.cameraReady = true := by simpa using hrd
              apply good_flushEffects
              intro _ _
              constructor
              · show gate.1.cameraAvailable = true
                rw [hga]; exact hav2
              · show gate.1.cameraReady = true
                rw [hgr]; exact hrd2

theorem good_run (isMobile : Bool) (evs : List Ev) (s : AppModel) (hs : Good s) :
    Good (run isMobile evs s) := by
  induction evs generalizing s with
  | nil => exact hs
  | cons e rest ih =>
      show Good (run isMobile rest (step isMobile e s))
      exact ih _ (good_step isMobile e s hs)

theorem good_initState (isMobile : Bool) (a0 : AppStateStatus) :
    Good (initState isMobile a0) := by
  intro hf
  exact absurd hf (by simp [initState])

/-- On a granted, available and ready state, toggleFlashlight reaches
the flip branch. -/
theorem toggle_ready (req : ReqOutcome) (s : AppModel)
    (hp : s.permission = PermissionState.granted)
    (hav : s.cameraAvailable = true) (hr : s.cameraReady = true) :
    toggleFlashlight true req s =
      (flushEffects { s with message := none, flashlightOn := !s.flashlightOn }, none) := by
  unfold toggleFlashlight
  rw [if_neg (by simp), if_pos hp]
  simp [hav, hr]

theorem toggleStep_ready (req : ReqOutcome) (s : AppModel)
    (hp : s.permission = PermissionState.granted)
    (hav : s.cameraAvailable = true) (hr : s.cameraReady = true) :
    (toggleStep req s).flashlightOn = !s.flashlightOn
    ∧ (toggleStep req s).message = none
    ∧ (toggleStep req s).permission = PermissionState.granted
    ∧ (toggleStep req s).cameraAvailable = true
    ∧ (toggleStep req s).cameraReady = true := by
  unfold toggleStep
  rw [toggle_ready req s hp hav hr]
  refine ⟨?_, ?_, ?_, ?_, ?_⟩
  · rw [flushEffects_flashlightOn]
    simp [hp]
  · rw [flushEffects_message]
  · rw [flushEffects_permission]; exact hp
  · rw [flushEffects_cameraAvailable]; exact hav
  · rw [flushEffects_cameraReady]; exact hr

/-- On a granted, available but not ready state, toggleFlashlight takes
the still-starting branch. -/
theorem toggle_notReady (req : ReqOutcome) (s : AppModel)
    (hp : s.permission = PermissionState.granted)
    (hav : s.cameraAvailable = true) (hnr : s.cameraReady = false) :
    toggleFlashlight true req s =
      (flushEffects { s with message := some stillStartingMsg }, none) := by
  unfold toggleFlashlight
  rw [if_neg (by simp), if_pos hp]
  simp [hav, hnr]

theorem toggleStep_notReady (req : ReqOutcome) (s : AppModel)
    (hp : s.permission = PermissionState.granted)
    (hav : s.cameraAvailable = true) (hnr : s.cameraReady = false) :
    (toggleStep req s).flashlightOn = s.flashlightOn
    ∧ (toggleStep req s).message = some stillStartingMsg
    ∧ (toggleStep req s).permission = PermissionState.granted
    ∧ (toggleStep req s).cameraAvailable = true
    ∧ (toggleStep req s).cameraReady = false := by
  unfold toggleStep
  rw [toggle_notReady req s hp hav hnr]
  refine ⟨?_, ?_, ?_, ?_, ?_⟩
  · rw [flushEffects_flashlightOn]
    simp [hp]
  · rw [flushEffects_message]
  · rw [flushEffects_permission]; exact hp
  · rw [flushEffects_cameraAvailable]; exact hav
  · rw [flushEffects_cameraReady]; exact hnr

/-- On a state whose camera is flagged unavailable, toggleFlashlight
never turns the torch on; when the permission gate passes it returns
the state unchanged with the Camera unavailable alert. -/
theorem toggle_unavailable (req : ReqOutcome) (s : AppModel)
    (hav : s.cameraAvailable = false) :
    ((toggleFlashlight true req s).1.flashlightOn = true → s.flashlightOn = true)
    ∧ (s.permission = PermissionState.granted →
        toggleFlashlight true req s = (s, some ToggleAlert.cameraUnavailable)) := by
  by_cases hp : s.permission = PermissionState.granted
  · have hmain : toggleFlashlight true req s = (s, some ToggleAlert.cameraUnavailable) := by
      unfold toggleFlashlight
      rw [if_neg (by simp), if_pos hp]
      simp [hav]
    rw [hmain]
    exact ⟨fun h => h, fun _ => rfl⟩
  · constructor
    · intro h
      unfold toggleFlashlight at h
      rw [if_neg (by simp), if_neg hp] at h
      cases req with
      | granted =>
          rw [requestPermissionRun_granted] at h
          simp only [hav] at h
          simp only [flushEffects_flashlightOn] at h
          simp at h
          rw [flushEffects_flashlightOn] at h
          simpa using h
      | denied =>
          simp only [requestPermissionRun] at h
          simp only [flushEffects_flashlightOn] at h
          simp at h
          rw [flushEffects_flashlightOn] at h
          simp at h
      | failure =>
          simp only [requestPermissionRun] at h
          simp only [flushEffects_flashlightOn] at h
          simp at h
          rw [flushEffects_flashlightOn] at h
          simp at h
    · intro hp2
      exact absurd hp2 hp

/-- When the permission gate of toggleFlashlight passes, the gate state
carries permission granted. -/
theorem toggle_gate_granted (req : ReqOutcome) (s : AppModel)
    (h2 : (if s.permission = PermissionState.granted then (s, true)
           else requestPermissionRun true req s).2 = true) :
    (if s.permission = PermissionState.granted then (s, true)
     else requestPermissionRun true req s).1.permission = PermissionState.granted := by
  split at h2
  · rw [if_pos (by assumption)]
    assumption
  · rw [if_neg (by assumption)]
    cases req with
    | granted =>
        rw [requestPermissionRun_granted]
        simp only
        rw [flushEffects_permission]
    | denied => exact absurd h2 (by simp [requestPermissionRun])
    | failure => exact absurd h2 (by simp [requestPermissionRun])

/-- The gate state of toggleFlashlight keeps the flashlight flag of the
incoming state whenever it reports granted. -/
theorem toggle_gate_flash (req : ReqOutcome) (s : AppModel)
    (h : (if s.permission = PermissionState.granted then (s, true)
          else requestPermissionRun true req s).1.flashlightOn = true) :
    s.flashlightOn = true := by
  split at h
  · exact h
  · cases req with
    | granted =>
        rw [requestPermissionRun_granted] at h
        simp only at h
        rw [flushEffects_flashlightOn] at h
        simpa using h
    | denied =>
        simp only [requestPermissionRun] at h
        rw [flushEffects_flashlightOn] at h
        simp at h
    | failure =>
        simp only [requestPermissionRun] at h
        rw [flushEffects_flashlightOn] at h
        simp at h

/-- After the permission gate, the camera gates of toggleFlashlight can
produce a lit torch only when both camera flags of the incoming state
are set. -/
theorem toggle_tail_origin (t g1 : AppModel)
    (hflash : g1.flashlightOn = true → t.flashlightOn = true)
    (hperm : g1.permission = PermissionState.granted)
    (h : (if t.cameraAvailable = false then (g1, some ToggleAlert.cameraUnavailable)
          else if t.cameraReady = false then
            (flushEffects { g1 with message := some stillStartingMsg }, none)
          else
            (flushEffects { g1 with message := none,
                                    flashlightOn := !g1.flashlightOn }, none)).1.flashlightOn
          = true) :
    t.flashlightOn = true ∨ (t.cameraAvailable = true ∧ t.cameraReady = true) := by
  by_cases hav : t.cameraAvailable = false
  · rw [if_pos hav] at h
    exact Or.inl (hflash h)
  · rw [if_neg hav] at h
    by_cases hrd : t.cameraReady = false
    · rw [if_pos hrd] at h
      simp only at h
      rw [flushEffects_flashlightOn] at h
      rw [if_pos (show ({ g1 with message := some stillStartingMsg } : AppModel).permission
          = PermissionState.granted from hperm)] at h
      exact Or.inl (hflash h)
    · exact Or.inr ⟨by simpa using hav, by simpa using hrd⟩

/-- Origin of a lit torch: the only event that turns flashlightOn from
false to true is a toggle on a supported platform whose camera gates
pass and whose resulting permission is granted. -/
theorem step_flash_origin (m : Bool) (e : Ev) (t : AppModel)
    (h : (step m e t).flashlightOn = true) :
    t.flashlightOn = true ∨
      ∃ r, e = Ev.toggle r ∧ m = true ∧ t.cameraAvailable = true ∧ t.cameraReady = true
        ∧ (step m e t).permission = PermissionState.granted := by
  cases e with
  | ensureResolve o =>
      left
      revert h
      show (if m = true then ensurePermissionRun true o t else t).flashlightOn = true → _
      split
      · unfold ensurePermissionRun
        rw [if_neg (by simp)]
        cases o <;>
          · intro h
            rw [flushEffects_flashlightOn] at h
            first
              | simpa using h
              | simp at h
      · exact fun h => h
  | cameraReady =>
      left
      unfold step handleCameraReady at h
      rw [flushEffects_flashlightOn] at h
      revert h
      split <;> intro h
      · exact h
      · exact absurd h (by simp)
  | cameraError msg =>
      unfold step handleCameraError at h
      rw [flushEffects_flashlightOn] at h
      revert h
      split <;> intro h <;> exact absurd h (by simp)
  | appStateChange next =>
      left
      revert h
      show (if m = true then appStateChangeListener next t else t).flashlightOn = true → _
      split
      · unfold appStateChangeListener appStateChangeCore
        split
        · intro h
          rw [flushEffects_flashlightOn] at h
          revert h
          split <;> intro h <;> exact absurd h (by simp)
        · exact fun h => h
      · exact fun h => h
  | foregroundResolve res =>
      left
      revert h
      show (if m = true then foregroundQueryRun true res t else t).flashlightOn = true → _
      split
      · cases res with
        | none => exact fun h => h
        | some g =>
            intro h
            show t.flashlightOn = true
            unfold foregroundQueryRun at h
            rw [flushEffects_flashlightOn] at h
            revert h
            split <;> intro h
            · exact h
            · exact absurd h (by simp)
      · exact fun h => h
  | toggle req =>
      replace h : (toggleFlashlight m req t).1.flashlightOn = true := h
      by_cases hm : m = false
      · rw [hm] at h
        unfold toggleFlashlight at h
        rw [if_pos rfl] at h
        exact Or.inl h
      · have hm2 : m = true := by simpa using hm
        rw [hm2] at h
        unfold toggleFlashlight at h
        rw [if_neg (by simp)] at h
        by_cases hg2 : (if t.permission = PermissionState.granted then (t, true)
            else requestPermissionRun true req t).2 = false
        · rw [if_pos hg2] at h
          left
          revert hg2 h
          split
          · intro h1 _
            exact h1
          · intro h1 hg2b
            have hzero := requestPermissionRun_false_flash true req t hg2b
            have h2 : (requestPermissionRun true req t).1.flashlightOn = true := h1
            rw [hzero] at h2
            exact absurd h2 (by simp)
        · rw [if_neg hg2] at h
          have hg2t : (if t.permission = PermissionState.granted then (t, true)
              else requestPermissionRun true req t).2 = true := by simpa using hg2
          have hperm := toggle_gate_granted req t hg2t
          have hcases := toggle_tail_origin t _ (toggle_gate_flash req t) hperm h
          cases hcases with
          | inl h1 => exact Or.inl h1
          | inr h2 =>
              right
              refine ⟨req, rfl, hm2, h2.1, h2.2, ?_⟩
              show (toggleFlashlight m req t).1.permission = PermissionState.granted
              rw [hm2]
              unfold toggleFlashlight
              rw [if_neg (by simp)]
              rw [if_neg hg2, if_neg (by simp [h2.1]), if_neg (by simp [h2.2])]
              simp only
              rw [flushEffects_permission]
              exact hperm

theorem toggle_avail_false (req : ReqOutcome) (s : AppModel)
    (h : s.cameraAvailable = false) :
    (toggleFlashlight true req s).1.cameraAvailable = false := by
  by_cases hp : s.permission = PermissionState.granted
  · rw [(toggle_unavailable req s h).2 hp]
    exact h
  · unfold toggleFlashlight
    rw [if_neg (by simp), if_neg hp]
    cases req <;>
      simp [requestPermissionRun, flushEffects_cameraAvailable, h]

/-- No event ever restores the camera-availability flag. -/
theorem step_avail_false (m : Bool) (e : Ev) (s : AppModel)
    (h : s.cameraAvailable = false) : (step m e s).cameraAvailable = false := by
  cases e with
  | ensureResolve o =>
      show (if m = true then ensurePermissionRun true o s else s).cameraAvailable = false
      split
      · unfold ensurePermissionRun
        rw [if_neg (by simp)]
        cases o <;> (rw [flushEffects_cameraAvailable]; exact h)
      · exact h
  | cameraReady =>
      show (handleCameraReady s).cameraAvailable = false
      unfold handleCameraReady
      rw [flushEffects_cameraAvailable]
      exact h
  | cameraError msg =>
      show (handleCameraError msg s).cameraAvailable = false
      unfold handleCameraError
      rw [flushEffects_cameraAvailable]
  | appStateChange next =>
      show (if m = true then appStateChangeListener next s else s).cameraAvailable = false
      split
      · unfold appStateChangeListener appStateChangeCore
        split
        · rw [flushEffects_cameraAvailable]
          exact h
        · exact h
      · exact h
  | foregroundResolve res =>
      show (if m = true then foregroundQueryRun true res s else s).cameraAvailable = false
      split
      · cases res with
        | none => exact h
        | some g =>
            show (flushEffects _).cameraAvailable = false
            rw [flushEffects_cameraAvailable]
            exact h
      · exact h
  | toggle req =>
      show (toggleFlashlight m req s).1.cameraAvailable = false
      by_cases hm : m = false
      · rw [hm]
        unfold toggleFlashlight
        rw [if_pos rfl]
        exact h
      · rw [show m = true by simpa using hm]
        exact toggle_avail_false req s h

theorem run_avail_false (m : Bool) (evs : List Ev) (s : AppModel)
    (h : s.cameraAvailable = false) : (run m evs s).cameraAvailable = false := by
  induction evs generalizing s with
  | nil => exact h
  | cons e rest ih =>
      show (run m rest (step m e s)).cameraAvailable = false
      exact ih _ (step_avail_false m e s h)

/-- The Scenario B state: permission granted, camera ready, torch on. -/
def stateB : AppModel :=
  { permission := PermissionState.granted
    cameraReady := true
    flashlightOn := true
    message := none
    cameraAvailable := true
    appStateRef := AppStateStatus.active
    torchStateRef := true }

/-- Permission granted, camera ready, torch off. -/
def stateReadyOff : AppModel :=
  { permission := PermissionState.granted
    cameraReady := true
    flashlightOn := false
    message := none
    cameraAvailable := true
    appStateRef := AppStateStatus.active
    torchStateRef := false }

/-- Permission granted, camera still starting, torch off. -/
def stateStarting : AppModel :=
  { permission := PermissionState.granted
    cameraReady := false
    flashlightOn := false
    message := none
    cameraAvailable := true
    appStateRef := AppStateStatus.active
    torchStateRef := false }

/-- Permission granted but the camera flagged unavailable. -/
def stateUnavail : AppModel :=
  { permission := PermissionState.granted
    cameraReady := true
    flashlightOn := false
    message := some "X"
    cameraAvailable := false
    appStateRef := AppStateStatus.active
    torchStateRef := false }

/-- The mount-time state of a mobile session. -/
def init0 : AppModel := initState true AppStateStatus.active

/-- C1: after every event of every event sequence from the mount-time
state (permission effect resolution, camera ready, camera error, app
lifecycle change, foreground re-query resolution, toggle), the
invariants hold: a lit torch implies permission granted (I1), a lit
torch implies camera readiness Ready (I2), and camera readiness
Errored implies the torch is off (I4). -/
theorem invariants_hold_after_every_event (isMobile : Bool) (a0 : AppStateStatus)
    (evs : List Ev) :
    ((run isMobile evs (initState isMobile a0)).flashlightOn = true →
      (run isMobile evs (initState isMobile a0)).permission = PermissionState.granted)
    ∧ ((run isMobile evs (initState isMobile a0)).flashlightOn = true →
      readiness (run isMobile evs (initState isMobile a0)) = CameraReadiness.ready)
    ∧ (readiness (run isMobile evs (initState isMobile a0)) = CameraReadiness.errored →
      (run isMobile evs (initState isMobile a0)).flashlightOn = false) := by
  have hg := good_run isMobile evs (initState isMobile a0) (good_initState isMobile a0)
  refine ⟨fun hf => (hg hf).1, fun hf => ?_, fun he => ?_⟩
  · have h2 := hg hf
    unfold readiness
    rw [h2.2.1, h2.2.2]
    rfl
  · by_cases hf : (run isMobile evs (initState isMobile a0)).flashlightOn = true
    · have h2 := hg hf
      unfold readiness at he
      rw [h2.2.1, h2.2.2] at he
      simp at he
    · simpa using hf

/-- C2 counterexample: from the lit Ready+Granted state, after
onCameraError and then a fresh onCameraReady, toggle is still rejected:
the state comes back unchanged with the Camera unavailable alert, the
torch stays off, even though the readiness flag is set again. -/
theorem toggle_still_rejected_after_fresh_ready :
    (toggleFlashlight true ReqOutcome.granted
        (handleCameraReady (handleCameraError (some "X") stateB))).1
      = handleCameraReady (handleCameraError (some "X") stateB)
    ∧ (toggleFlashlight true ReqOutcome.granted
        (handleCameraReady (handleCameraError (some "X") stateB))).2
      = some ToggleAlert.cameraUnavailable
    ∧ (handleCameraReady (handleCameraError (some "X") stateB)).flashlightOn = false
    ∧ (handleCameraReady (handleCameraError (some "X") stateB)).cameraReady = true :=
  ⟨rfl, rfl, rfl, rfl⟩

/-- C2 amended: after onCameraError fires while the torch is on, the
torch flag is forced off and readiness becomes Errored, and toggle is
rejected from then on; a fresh onCameraReady does not make toggle
accepted again, because the availability flag is never restored. -/
theorem camera_error_rejects_toggles_permanently (s : AppModel) (msg : Option String)
    (h : s.flashlightOn = true) :
    (handleCameraError msg s).flashlightOn = false
    ∧ readiness (handleCameraError msg s) = CameraReadiness.errored
    ∧ (∀ req, (toggleFlashlight true req (handleCameraError msg s)).1.flashlightOn = false)
    ∧ (∀ req, (toggleFlashlight true req
        (handleCameraReady (handleCameraError msg s))).1.flashlightOn = false)
    ∧ (∀ req, (handleCameraReady (handleCameraError msg s)).permission
          = PermissionState.granted →
        (toggleFlashlight true req (handleCameraReady (handleCameraError msg s))).2
          = some ToggleAlert.cameraUnavailable) := by
  have hEa : (handleCameraError msg s).cameraAvailable = false := by
    unfold handleCameraError
    rw [flushEffects_cameraAvailable]
  have hEf : (handleCameraError msg s).flashlightOn = false := by
    unfold handleCameraError
    rw [flushEffects_flashlightOn]
    split <;> rfl
  have hRa : (handleCameraReady (handleCameraError msg s)).cameraAvailable = false := by
    unfold handleCameraReady
    rw [flushEffects_cameraAvailable]
    exact hEa
  have hRf : (handleCameraReady (handleCameraError msg s)).flashlightOn = false := by
    unfold handleCameraReady
    rw [flushEffects_flashlightOn]
    split
    · exact hEf
    · rfl
  refine ⟨hEf, ?_, fun req => ?_, fun req => ?_, fun req hperm => ?_⟩
  · unfold readiness
    rw [hEa]
    rfl
  · by_cases hres : (toggleFlashlight true req (handleCameraError msg s)).1.flashlightOn = true
    · have := (toggle_unavailable req (handleCameraError msg s) hEa).1 hres
      rw [hEf] at this
      exact absurd this (by simp)
    · simpa using hres
  · by_cases hres : (toggleFlashlight true req
        (handleCameraReady (handleCameraError msg s))).1.flashlightOn = true
    · have := (toggle_unavailable req (handleCameraReady (handleCameraError msg s)) hRa).1 hres
      rw [hRf] at this
      exact absurd this (by simp)
    · simpa using hres
  · rw [(toggle_unavailable req (handleCameraReady (handleCameraError msg s)) hRa).2 hperm]

/-- C2 amended, witness at the concrete Scenario B state. -/
theorem camera_error_rejects_toggles_permanently_witness :
    stateB.flashlightOn = true
    ∧ ((handleCameraError (some "X") stateB).flashlightOn = false
      ∧ readiness (handleCameraError (some "X") stateB) = CameraReadiness.errored
      ∧ (∀ req, (toggleFlashlight true req
          (handleCameraError (some "X") stateB)).1.flashlightOn = false)
      ∧ (∀ req, (toggleFlashlight true req
          (handleCameraReady (handleCameraError (some "X") stateB))).1.flashlightOn = false)
      ∧ (∀ req, (handleCameraReady (handleCameraError (some "X") stateB)).permission
            = PermissionState.granted →
          (toggleFlashlight true req
              (handleCameraReady (handleCameraError (some "X") stateB))).2
            = some ToggleAlert.cameraUnavailable)) :=
  ⟨rfl, camera_error_rejects_toggles_permanently stateB (some "X") rfl⟩

/-- C3 counterexample: with the issuing scope torn down (mounted flag
false at resumption) the requestPermission resolution still mutates
state, so it is not the case that every asynchronous completion checks
a still-mounted guard before applying its effect. -/
theorem unmounted_request_still_mutates :
    (requestPermissionRun false ReqOutcome.granted init0).1.permission
      = PermissionState.granted
    ∧ init0.permission = PermissionState.unknown :=
  ⟨rfl, rfl⟩

/-- C3 amended: only the mount-time ensurePermission effect carries a
mounted guard — its resolutions after teardown change nothing — while
the requestPermission and foreground re-query resolutions never consult
the mounted flag and apply their effects regardless of teardown. -/
theorem mounted_guard_only_on_ensure :
    (∀ (o : EnsureOutcome) (s : AppModel), ensurePermissionRun false o s = s)
    ∧ (∀ (m : Bool) (o : ReqOutcome) (s : AppModel),
        requestPermissionRun m o s = requestPermissionRun true o s)
    ∧ (∀ (m : Bool) (r : Option Bool) (s : AppModel),
        foregroundQueryRun m r s = foregroundQueryRun true r s) :=
  ⟨fun _ _ => rfl, fun _ _ _ => rfl, fun _ _ _ => rfl⟩

/-- C4: on a lifecycle transition whose previous state is active and
whose next state matches background or inactive, a lit torch is turned
off inside the listener body itself — before the effect pass runs and
with no toggle call involved. -/
theorem lifecycle_background_forces_torch_off (next : AppStateStatus) (s : AppModel)
    (h1 : s.appStateRef = AppStateStatus.active)
    (h2 : isInactiveOrBackground next = true)
    (h3 : s.flashlightOn = true)
    (h4 : s.torchStateRef = s.flashlightOn) :
    (appStateChangeCore next s).flashlightOn = false
    ∧ (appStateChangeListener next s).flashlightOn = false := by
  have hcond : s.appStateRef = AppStateStatus.active ∧ isInactiveOrBackground next = true
      ∧ s.torchStateRef = true := ⟨h1, h2, by rw [h4]; exact h3⟩
  constructor
  · unfold appStateChangeCore
    rw [if_pos hcond]
  · unfold appStateChangeListener
    rw [if_pos hcond]
    unfold appStateChangeCore
    rw [if_pos hcond]
    rw [flushEffects_flashlightOn]
    split <;> rfl

/-- C4 witness at the concrete lit Scenario B state. -/
theorem lifecycle_background_forces_torch_off_witness :
    (stateB.appStateRef = AppStateStatus.active
      ∧ isInactiveOrBackground AppStateStatus.background = true
      ∧ stateB.flashlightOn = true
      ∧ stateB.torchStateRef = stateB.flashlightOn)
    ∧ ((appStateChangeCore AppStateStatus.background stateB).flashlightOn = false
      ∧ (appStateChangeListener AppStateStatus.background stateB).flashlightOn = false) :=
  ⟨⟨rfl, rfl, rfl, rfl⟩,
    lifecycle_background_forces_torch_off AppStateStatus.background stateB rfl rfl rfl rfl⟩

/-- C5: with permission granted and the camera available and ready on a
supported platform, toggle flips the torch flag and clears any prior
message with no alert raised; and the only event that can turn the
torch flag from off to on is such a toggle. -/
theorem toggle_flips_and_is_only_on_path (s : AppModel) (req : ReqOutcome)
    (hp : s.permission = PermissionState.granted)
    (hav : s.cameraAvailable = true) (hr : s.cameraReady = true) :
    ((toggleFlashlight true req s).1.flashlightOn = !s.flashlightOn)
    ∧ ((toggleFlashlight true req s).1.message = none)
    ∧ ((toggleFlashlight true req s).2 = none)
    ∧ (∀ (m : Bool) (e : Ev) (t : AppModel), (step m e t).flashlightOn = true →
        t.flashlightOn = true ∨
          ∃ r, e = Ev.toggle r ∧ m = true ∧ t.cameraAvailable = true ∧ t.cameraReady = true
            ∧ (step m e t).permission = PermissionState.granted) := by
  have hts := toggleStep_ready req s hp hav hr
  refine ⟨hts.1, hts.2.1, ?_, step_flash_origin⟩
  rw [toggle_ready req s hp hav hr]

/-- C5 witness at the concrete ready-and-off state. -/
theorem toggle_flips_and_is_only_on_path_witness :
    (stateReadyOff.permission = PermissionState.granted
      ∧ stateReadyOff.cameraAvailable = true ∧ stateReadyOff.cameraReady = true)
    ∧ (((toggleFlashlight true ReqOutcome.granted stateReadyOff).1.flashlightOn
          = !stateReadyOff.flashlightOn)
      ∧ ((toggleFlashlight true ReqOutcome.granted stateReadyOff).1.message = none)
      ∧ ((toggleFlashlight true ReqOutcome.granted stateReadyOff).2 = none)
      ∧ (∀ (m : Bool) (e : Ev) (t : AppModel), (step m e t).flashlightOn = true →
          t.flashlightOn = true ∨
            ∃ r, e = Ev.toggle r ∧ m = true ∧ t.cameraAvailable = true ∧ t.cameraReady = true
              ∧ (step m e t).permission = PermissionState.granted)) :=
  ⟨⟨rfl, rfl, rfl⟩,
    toggle_flips_and_is_only_on_path stateReadyOff ReqOutcome.granted rfl rfl rfl⟩

/-- C6: from a granted and ready state on a supported platform, two
successive toggles return the torch flag to its original value and
leave the message equal to null. -/
theorem toggle_twice_roundtrip (s : AppModel) (r1 r2 : ReqOutcome)
    (hp : s.permission = PermissionState.granted)
    (hav : s.cameraAvailable = true) (hr : s.cameraReady = true) :
    (toggleStep r2 (toggleStep r1 s)).flashlightOn = s.flashlightOn
    ∧ (toggleStep r2 (toggleStep r1 s)).message = none := by
  have h1 := toggleStep_ready r1 s hp hav hr
  have h2 := toggleStep_ready r2 (toggleStep r1 s) h1.2.2.1 h1.2.2.2.1 h1.2.2.2.2
  refine ⟨?_, h2.2.1⟩
  rw [h2.1, h1.1, Bool.not_not]

/-- C6 witness at the concrete ready-and-off state. -/
theorem toggle_twice_roundtrip_witness :
    (stateReadyOff.permission = PermissionState.granted
      ∧ stateReadyOff.cameraAvailable = true ∧ stateReadyOff.cameraReady = true)
    ∧ ((toggleStep ReqOutcome.granted
          (toggleStep ReqOutcome.granted stateReadyOff)).flashlightOn
        = stateReadyOff.flashlightOn
      ∧ (toggleStep ReqOutcome.granted
          (toggleStep ReqOutcome.granted stateReadyOff)).message = none) :=
  ⟨⟨rfl, rfl, rfl⟩,
    toggle_twice_roundtrip stateReadyOff ReqOutcome.granted ReqOutcome.granted rfl rfl rfl⟩

/-- C7: while the camera session is not yet ready (permission granted,
camera available, supported platform), any number of repeated toggles
leaves the torch flag and every gating field unchanged; each call only
surfaces the transient still-starting message. -/
theorem toggle_notReady_idempotent (s : AppModel) (req : ReqOutcome) (n : Nat)
    (hp : s.permission = PermissionState.granted)
    (hav : s.cameraAvailable = true) (hnr : s.cameraReady = false) :
    ((toggleStep req)^[n] s).flashlightOn = s.flashlightOn
    ∧ ((toggleStep req)^[n] s).permission = PermissionState.granted
    ∧ ((toggleStep req)^[n] s).cameraAvailable = true
    ∧ ((toggleStep req)^[n] s).cameraReady = false
    ∧ (1 ≤ n → ((toggleStep req)^[n] s).message = some stillStartingMsg) := by
  induction n generalizing s with
  | zero =>
      refine ⟨rfl, hp, hav, hnr, fun hk => absurd hk (by simp)⟩
  | succ k ih =>
      have h1 := toggleStep_notReady req s hp hav hnr
      rw [Function.iterate_succ_apply]
      have h2 := ih (toggleStep req s) h1.2.2.1 h1.2.2.2.1 h1.2.2.2.2
      refine ⟨by rw [h2.1, h1.1], h2.2.1, h2.2.2.1, h2.2.2.2.1, fun _ => ?_⟩
      cases k with
      | zero => exact h1.2.1
      | succ j => exact h2.2.2.2.2 (by omega)

/-- C7 witness: three toggles from the concrete starting state. -/
theorem toggle_notReady_idempotent_witness :
    (stateStarting.permission = PermissionState.granted
      ∧ stateStarting.cameraAvailable = true ∧ stateStarting.cameraReady = false)
    ∧ (((toggleStep ReqOutcome.granted)^[3] stateStarting).flashlightOn
        = stateStarting.flashlightOn
      ∧ ((toggleStep ReqOutcome.granted)^[3] stateStarting).permission
        = PermissionState.granted
      ∧ ((toggleStep ReqOutcome.granted)^[3] stateStarting).cameraAvailable = true
      ∧ ((toggleStep ReqOutcome.granted)^[3] stateStarting).cameraReady = false
      ∧ (1 ≤ 3 →
          ((toggleStep ReqOutcome.granted)^[3] stateStarting).message
            = some stillStartingMsg)) :=
  ⟨⟨rfl, rfl, rfl⟩,
    toggle_notReady_idempotent stateStarting ReqOutcome.granted 3 rfl rfl rfl⟩

/-- C8: the derived status text equals the top-down first-match
evaluation of the ordered priority rules: unsupported platform, unknown
permission, denied permission, unavailable camera, not-ready camera,
then the ON/OFF text from the torch flag. -/
theorem statusText_priority_order (m : Bool) (s : AppModel) :
    statusText m s = statusTextSpec m s := by
  obtain ⟨p, cr, f, msg, ca, ar, tr⟩ := s
  cases m <;> cases p <;> cases cr <;> cases f <;> cases ca <;> rfl

/-- C9: the foreground permission re-query resolution sets permission
to granted or denied according to the query result, and a failed query
is swallowed: the whole state comes back unchanged and no message is
surfaced in any case. -/
theorem foreground_requery_updates_or_swallows (s : AppModel) :
    (foregroundQueryRun true (some true) s).permission = PermissionState.granted
    ∧ (foregroundQueryRun true (some false) s).permission = PermissionState.denied
    ∧ foregroundQueryRun true none s = s
    ∧ (∀ r : Option Bool, (foregroundQueryRun true r s).message = s.message) := by
  refine ⟨?_, ?_, rfl, fun r => ?_⟩
  · show (flushEffects _).permission = _
    rw [flushEffects_permission]
    rfl
  · show (flushEffects _).permission = _
    rw [flushEffects_permission]
    rfl
  · cases r with
    | none => rfl
    | some g =>
        show (flushEffects _).message = _
        rw [flushEffects_message]

/-- C10: once the availability flag is false it stays false under every
event — onCameraReady in particular only sets the readiness flag and
clears the message — so after any further event sequence toggle never
turns the torch on and, whenever its permission gate passes, returns
the state unchanged with the Camera unavailable alert. -/
theorem camera_unavailable_is_permanent (s : AppModel) (h : s.cameraAvailable = false) :
    ((handleCameraReady s).cameraAvailable = false)
    ∧ ((handleCameraReady s).cameraReady = true)
    ∧ ((handleCameraReady s).message = none)
    ∧ (∀ (m : Bool) (evs : List Ev), (run m evs s).cameraAvailable = false)
    ∧ (∀ (m : Bool) (evs : List Ev) (req : ReqOutcome),
        ((toggleFlashlight true req (run m evs s)).1.flashlightOn = true →
          (run m evs s).flashlightOn = true)
        ∧ ((run m evs s).permission = PermissionState.granted →
            toggleFlashlight true req (run m evs s)
              = ((run m evs s), some ToggleAlert.cameraUnavailable))) := by
  refine ⟨?_, ?_, ?_, fun m evs => run_avail_false m evs s h, fun m evs req => ?_⟩
  · unfold handleCameraReady
    rw [flushEffects_cameraAvailable]
    exact h
  · unfold handleCameraReady
    rw [flushEffects_cameraReady]
  · unfold handleCameraReady
    rw [flushEffects_message]
  · exact toggle_unavailable req (run m evs s) (run_avail_false m evs s h)

/-- C10 witness at the concrete unavailable state. -/
theorem camera_unavailable_is_permanent_witness :
    stateUnavail.cameraAvailable = false
    ∧ (((handleCameraReady stateUnavail).cameraAvailable = false)
      ∧ ((handleCameraReady stateUnavail).cameraReady = true)
      ∧ ((handleCameraReady stateUnavail).message = none)
      ∧ (∀ (m : Bool) (evs : List Ev), (run m evs stateUnavail).cameraAvailable = false)
      ∧ (∀ (m : Bool) (evs : List Ev) (req : ReqOutcome),
          ((toggleFlashlight true req (run m evs stateUnavail)).1.flashlightOn = true →
            (run m evs stateUnavail).flashlightOn = true)
          ∧ ((run m evs stateUnavail).permission = PermissionState.granted →
              toggleFlashlight true req (run m evs stateUnavail)
                = ((run m evs stateUnavail), some ToggleAlert.cameraUnavailable)))) :=
  ⟨rfl, camera_unavailable_is_permanent stateUnavail rfl⟩

end MorseFlasher
